import Mathlib

/-
Verification of the m68k architecture binding of the Unicorn emulator
(src/qemu/target/m68k/unicorn.c): register directory, typed accessor,
batch dispatcher, live/context duality, program-counter write side
effect, and lifecycle hooks (reset, get/set program counter).

Machine integers are modelled as Nat with explicit reduction mod 2^32
where a store into a 32-bit field occurs.  Declarations whose C source
is not part of the analysed file (the register enumeration, the error
enumeration, the CHECK_REG_TYPE width-check macro, the status-register
canonicalization routine cpu_m68k_set_sr, and the engine-core
quit_request / break_translation_loop collaborators) are modelled from
the specification and are marked as such in their doc comments.
-/

set_option autoImplicit false

namespace Unicorn

/-- Modelled from the spec: the engine error-code enumeration `uc_err`
(declared in unicorn.h, outside the analysed source).  The spec names
`OK` and `INVALID_ARGUMENT` as the only codes this binding produces,
while the engine-level enumeration holds further kinds (out-of-memory,
bad handle, unmapped read, ...), represented here so that "no other
error kind is returned" is a non-trivial statement. -/
inductive uc_err where
  | UC_ERR_OK
  | UC_ERR_NOMEM
  | UC_ERR_HANDLE
  | UC_ERR_MODE
  | UC_ERR_ARG
  | UC_ERR_READ_UNMAPPED
  | UC_ERR_WRITE_UNMAPPED
  deriving DecidableEq

/-- Modelled from the spec: the register identifier space (the
`uc_m68k_reg` enumeration in the public header, outside the analysed
source): 8 contiguous address-register identifiers, then 8 contiguous
data-register identifiers, then the status-register and
program-counter singletons; identifier 0 is the invalid marker. -/
def UC_M68K_REG_A0 : Nat := 1

def UC_M68K_REG_A7 : Nat := 8

def UC_M68K_REG_D0 : Nat := 9

def UC_M68K_REG_D7 : Nat := 16

def UC_M68K_REG_SR : Nat := 17

def UC_M68K_REG_PC : Nat := 18

/-- The m68k CPU state visible to this binding: eight 32-bit address
registers (`aregs`), eight 32-bit data registers (`dregs`), the
program counter and the status register, plus architecture-private
data (per-mode translation caches and the other fields of
CPUM68KState) that the register interface never touches, modelled
opaquely as `caches`.  Register arrays are total maps from the index
used by the C array access; only indices 0..7 are ever produced by
the range-checked accessor. -/
structure CPUM68KState where
  aregs : Nat → Nat
  dregs : Nat → Nat
  pc : Nat
  sr : Nat
  caches : Nat

/-- The engine structure fields this binding interacts with: the CPU
state reached through `uc->cpu->env_ptr`, the `quit_request` flag, and
the number of `break_translation_loop` signals delivered to the
translation-loop controller.  Modelled from the spec: `quit_request`
and `break_translation_loop` live in the engine core, outside the
analysed source; the controller signal is modelled as a counter so
that "signalled exactly once" is expressible. -/
structure uc_struct where
  env : CPUM68KState
  quit_request : Bool
  btl_signals : Nat

/-- Modelled from the spec: the CHECK_REG_TYPE width-check macro
(uc_priv.h, outside the analysed source) — the caller-declared buffer
size must equal the mapped register's fixed width, otherwise the
operation fails with invalid-argument and performs no access. -/
def check_reg_type (size width : Nat) : Bool :=
  size = width

/-- Modelled from the spec: `cpu_m68k_set_sr`, the architecture's
status-register canonicalization routine (an external collaborator).
The canonicalizer itself is a parameter `canon`; the routine stores
the canonicalized value into the 32-bit `sr` field. -/
def cpu_m68k_set_sr (canon : Nat → Nat) (env : CPUM68KState) (v : Nat) :
    CPUM68KState :=
  { env with sr := canon v % 2 ^ 32 }

/-- `reg_read(env, regid, value, size)`: classify `regid`, check the
declared size against the 4-byte width, and copy the register into
the caller buffer.  The result is the returned `uc_err` together with
the buffer effect: `some v` when the buffer was written with `v`,
`none` when it was left untouched.  `ret` starts as `UC_ERR_ARG` and
only a successful width check turns it into `UC_ERR_OK`. -/
def reg_read (env : CPUM68KState) (regid : Nat) (size : Nat) :
    uc_err × Option Nat :=
  if UC_M68K_REG_A0 ≤ regid ∧ regid ≤ UC_M68K_REG_A7 then
    if check_reg_type size 4 then
      (uc_err.UC_ERR_OK, some (env.aregs (regid - UC_M68K_REG_A0)))
    else (uc_err.UC_ERR_ARG, none)
  else if UC_M68K_REG_D0 ≤ regid ∧ regid ≤ UC_M68K_REG_D7 then
    if check_reg_type size 4 then
      (uc_err.UC_ERR_OK, some (env.dregs (regid - UC_M68K_REG_D0)))
    else (uc_err.UC_ERR_ARG, none)
  else if regid = UC_M68K_REG_PC then
    if check_reg_type size 4 then (uc_err.UC_ERR_OK, some env.pc)
    else (uc_err.UC_ERR_ARG, none)
  else if regid = UC_M68K_REG_SR then
    if check_reg_type size 4 then (uc_err.UC_ERR_OK, some env.sr)
    else (uc_err.UC_ERR_ARG, none)
  else (uc_err.UC_ERR_ARG, none)

/-- `reg_write(env, regid, value, size, setpc)`: classify `regid`,
check the declared size, and copy the caller value into the register
field; a program-counter write additionally raises the `setpc` flag
for the caller; a status-register write routes through
`cpu_m68k_set_sr`.  The caller buffer read `*(uint32_t *)value` is
the low 32 bits of the supplied value.  Returns the `uc_err`, the
resulting state and the resulting `setpc` flag; on failure state and
flag are unchanged. -/
def reg_write (canon : Nat → Nat) (env : CPUM68KState) (regid : Nat)
    (value : Nat) (size : Nat) (setpc : Bool) :
    uc_err × CPUM68KState × Bool :=
  let v := value % 2 ^ 32
  if UC_M68K_REG_A0 ≤ regid ∧ regid ≤ UC_M68K_REG_A7 then
    if check_reg_type size 4 then
      (uc_err.UC_ERR_OK,
        { env with
          aregs := Function.update env.aregs (regid - UC_M68K_REG_A0) v },
        setpc)
    else (uc_err.UC_ERR_ARG, env, setpc)
  else if UC_M68K_REG_D0 ≤ regid ∧ regid ≤ UC_M68K_REG_D7 then
    if check_reg_type size 4 then
      (uc_err.UC_ERR_OK,
        { env with
          dregs := Function.update env.dregs (regid - UC_M68K_REG_D0) v },
        setpc)
    else (uc_err.UC_ERR_ARG, env, setpc)
  else if regid = UC_M68K_REG_PC then
    if check_reg_type size 4 then
      (uc_err.UC_ERR_OK, { env with pc := v }, true)
    else (uc_err.UC_ERR_ARG, env, setpc)
  else if regid = UC_M68K_REG_SR then
    if check_reg_type size 4 then
      (uc_err.UC_ERR_OK, cpu_m68k_set_sr canon env v, setpc)
    else (uc_err.UC_ERR_ARG, env, setpc)
  else (uc_err.UC_ERR_ARG, env, setpc)

/-- `reg_read_batch(env, regs, vals, sizes, count)`: apply `reg_read`
over the entries (identifier, declared size) in index order, stopping
at the first failure and returning its error.  The second component
records the per-entry buffer effect: `some v` for a populated buffer,
`none` for a buffer never written. -/
def reg_read_batch (env : CPUM68KState) :
    List (Nat × Nat) → uc_err × List (Option Nat)
  | [] => (uc_err.UC_ERR_OK, [])
  | e :: rest =>
    let r := reg_read env e.1 e.2
    if r.1 = uc_err.UC_ERR_OK then
      let b := reg_read_batch env rest
      (b.1, r.2 :: b.2)
    else (r.1, none :: rest.map fun _ => (none : Option Nat))

/-- `reg_write_batch(env, regs, vals, sizes, count, setpc)`: apply
`reg_write` over the entries (identifier, value, declared size) in
index order, threading the state and the `setpc` flag, stopping at
the first failure and returning its error together with the state
reached so far. -/
def reg_write_batch (canon : Nat → Nat) (env : CPUM68KState)
    (setpc : Bool) :
    List (Nat × Nat × Nat) → uc_err × CPUM68KState × Bool
  | [] => (uc_err.UC_ERR_OK, env, setpc)
  | e :: rest =>
    let r := reg_write canon env e.1 e.2.1 e.2.2 setpc
    if r.1 = uc_err.UC_ERR_OK then
      reg_write_batch canon r.2.1 r.2.2 rest
    else (r.1, r.2.1, r.2.2)

/-- `m68k_reg_read(uc, regs, vals, sizes, count)`: batch read on live
state. -/
def m68k_reg_read (uc : uc_struct) (entries : List (Nat × Nat)) :
    uc_err × List (Option Nat) :=
  reg_read_batch uc.env entries

/-- `m68k_reg_write(uc, regs, vals, sizes, count)`: batch write on
live state with `setpc` starting at 0; on success with `setpc`
raised, set `quit_request` and signal the translation-loop controller
(`break_translation_loop`) once. -/
def m68k_reg_write (canon : Nat → Nat) (uc : uc_struct)
    (entries : List (Nat × Nat × Nat)) : uc_err × uc_struct :=
  let r := reg_write_batch canon uc.env false entries
  if r.1 ≠ uc_err.UC_ERR_OK then (r.1, { uc with env := r.2.1 })
  else if r.2.2 then
    (uc_err.UC_ERR_OK,
      { env := r.2.1, quit_request := true,
        btl_signals := uc.btl_signals + 1 })
  else (uc_err.UC_ERR_OK, { uc with env := r.2.1 })

/-- `m68k_context_reg_read(ctx, regs, vals, sizes, count)`: batch read
on a detached context snapshot. -/
def m68k_context_reg_read (env : CPUM68KState)
    (entries : List (Nat × Nat)) : uc_err × List (Option Nat) :=
  reg_read_batch env entries

/-- `m68k_context_reg_write(ctx, regs, vals, sizes, count)`: batch
write on a detached context snapshot; the `setpc` flag is a local that
is discarded — no quit flag exists on a snapshot and no controller
signal is emitted. -/
def m68k_context_reg_write (canon : Nat → Nat) (env : CPUM68KState)
    (entries : List (Nat × Nat × Nat)) : uc_err × CPUM68KState :=
  let r := reg_write_batch canon env false entries
  (r.1, r.2.1)

/-- `m68k_reg_reset(uc)`: zero the address registers, the data
registers and the program counter of the live CPU state; every other
field is untouched. -/
def m68k_reg_reset (uc : uc_struct) : uc_struct :=
  { uc with
    env :=
      { uc.env with aregs := fun _ => 0, dregs := fun _ => 0, pc := 0 } }

/-- `m68k_set_pc(uc, address)`: direct program-counter setter hook —
stores the 64-bit argument into the 32-bit `pc` field (truncating),
with no other effect. -/
def m68k_set_pc (uc : uc_struct) (address : Nat) : uc_struct :=
  { uc with env := { uc.env with pc := address % 2 ^ 32 } }

/-- `m68k_get_pc(uc)`: direct program-counter getter hook — returns
the 32-bit `pc` field widened to 64 bits. -/
def m68k_get_pc (uc : uc_struct) : Nat :=
  uc.env.pc

/-- A register identifier is defined when it falls in the
address-register range, the data-register range, or is one of the two
singletons. -/
def definedReg (regid : Nat) : Bool :=
  (decide (UC_M68K_REG_A0 ≤ regid) && decide (regid ≤ UC_M68K_REG_A7)) ||
  (decide (UC_M68K_REG_D0 ≤ regid) && decide (regid ≤ UC_M68K_REG_D7)) ||
  decide (regid = UC_M68K_REG_PC) || decide (regid = UC_M68K_REG_SR)

/-- A concrete zeroed CPU state, used to instantiate universally
quantified statements at concrete inputs. -/
def env0 : CPUM68KState :=
  { aregs := fun _ => 0, dregs := fun _ => 0, pc := 0, sr := 0,
    caches := 0 }

/-- A concrete engine state around `env0` with the quit flag clear and
no controller signal delivered yet. -/
def uc0 : uc_struct :=
  { env := env0, quit_request := false, btl_signals := 0 }

/-- A concrete engine state whose register file and private fields are
all nonzero, used to instantiate frame statements at a concrete
input. -/
def uc1 : uc_struct :=
  { env :=
      { aregs := fun _ => 11, dregs := fun _ => 22, pc := 33, sr := 44,
        caches := 55 },
    quit_request := true, btl_signals := 3 }

/-! ### Evaluation lemmas for the typed accessor -/

theorem reg_read_areg (env : CPUM68KState) (regid : Nat)
    (h : UC_M68K_REG_A0 ≤ regid ∧ regid ≤ UC_M68K_REG_A7) :
    reg_read env regid 4 =
      (uc_err.UC_ERR_OK, some (env.aregs (regid - UC_M68K_REG_A0))) := by
  simp [reg_read, check_reg_type, h]

theorem reg_read_dreg (env : CPUM68KState) (regid : Nat)
    (h : UC_M68K_REG_D0 ≤ regid ∧ regid ≤ UC_M68K_REG_D7) :
    reg_read env regid 4 =
      (uc_err.UC_ERR_OK, some (env.dregs (regid - UC_M68K_REG_D0))) := by
  have hna : ¬(UC_M68K_REG_A0 ≤ regid ∧ regid ≤ UC_M68K_REG_A7) := by
    simp only [UC_M68K_REG_A0, UC_M68K_REG_A7, UC_M68K_REG_D0,
      UC_M68K_REG_D7] at *
    omega
  simp [reg_read, check_reg_type, h, hna]

theorem reg_read_pc (env : CPUM68KState) :
    reg_read env UC_M68K_REG_PC 4 = (uc_err.UC_ERR_OK, some env.pc) := by
  simp [reg_read, check_reg_type, UC_M68K_REG_A0, UC_M68K_REG_A7,
    UC_M68K_REG_D0, UC_M68K_REG_D7, UC_M68K_REG_PC]

theorem reg_read_sr (env : CPUM68KState) :
    reg_read env UC_M68K_REG_SR 4 = (uc_err.UC_ERR_OK, some env.sr) := by
  simp [reg_read, check_reg_type, UC_M68K_REG_A0, UC_M68K_REG_A7,
    UC_M68K_REG_D0, UC_M68K_REG_D7, UC_M68K_REG_PC, UC_M68K_REG_SR]

theorem reg_write_areg (canon : Nat → Nat) (env : CPUM68KState)
    (regid v : Nat) (b : Bool)
    (h : UC_M68K_REG_A0 ≤ regid ∧ regid ≤ UC_M68K_REG_A7) :
    reg_write canon env regid v 4 b =
      (uc_err.UC_ERR_OK,
        { env with
          aregs :=
            Function.update env.aregs (regid - UC_M68K_REG_A0)
              (v % 2 ^ 32) },
        b) := by
  simp [reg_write, check_reg_type, h]

theorem reg_write_dreg (canon : Nat → Nat) (env : CPUM68KState)
    (regid v : Nat) (b : Bool)
    (h : UC_M68K_REG_D0 ≤ regid ∧ regid ≤ UC_M68K_REG_D7) :
    reg_write canon env regid v 4 b =
      (uc_err.UC_ERR_OK,
        { env with
          dregs :=
            Function.update env.dregs (regid - UC_M68K_REG_D0)
              (v % 2 ^ 32) },
        b) := by
  have hna : ¬(UC_M68K_REG_A0 ≤ regid ∧ regid ≤ UC_M68K_REG_A7) := by
    simp only [UC_M68K_REG_A0, UC_M68K_REG_A7, UC_M68K_REG_D0,
      UC_M68K_REG_D7] at *
    omega
  simp [reg_write, check_reg_type, h, hna]

theorem reg_write_pc (canon : Nat → Nat) (env : CPUM68KState)
    (v : Nat) (b : Bool) :
    reg_write canon env UC_M68K_REG_PC v 4 b =
      (uc_err.UC_ERR_OK, { env with pc := v % 2 ^ 32 }, true) := by
  simp [reg_write, check_reg_type, UC_M68K_REG_A0, UC_M68K_REG_A7,
    UC_M68K_REG_D0, UC_M68K_REG_D7, UC_M68K_REG_PC]

theorem reg_write_sr (canon : Nat → Nat) (env : CPUM68KState)
    (v : Nat) (b : Bool) :
    reg_write canon env UC_M68K_REG_SR v 4 b =
      (uc_err.UC_ERR_OK, cpu_m68k_set_sr canon env (v % 2 ^ 32), b) := by
  simp [reg_write, check_reg_type, UC_M68K_REG_A0, UC_M68K_REG_A7,
    UC_M68K_REG_D0, UC_M68K_REG_D7, UC_M68K_REG_PC, UC_M68K_REG_SR]

theorem reg_read_bad_size (env : CPUM68KState) (regid s : Nat)
    (hs : s ≠ 4) : reg_read env regid s = (uc_err.UC_ERR_ARG, none) := by
  unfold reg_read check_reg_type
  split_ifs with h1 h2 h3 h4 h5 h6 h7 h8 <;> simp_all

theorem reg_write_bad_size (canon : Nat → Nat) (env : CPUM68KState)
    (regid v s : Nat) (b : Bool) (hs : s ≠ 4) :
    reg_write canon env regid v s b = (uc_err.UC_ERR_ARG, env, b) := by
  unfold reg_write check_reg_type
  split_ifs with h1 h2 h3 h4 h5 h6 h7 h8 <;> simp_all

theorem reg_read_undef (env : CPUM68KState) (regid s : Nat)
    (h : definedReg regid = false) :
    reg_read env regid s = (uc_err.UC_ERR_ARG, none) := by
  unfold definedReg at h
  simp only [Bool.or_eq_false_iff, Bool.and_eq_false_iff,
    decide_eq_false_iff_not] at h
  unfold reg_read
  split_ifs with h1 h2 h3 h4 <;> simp_all

theorem reg_write_undef (canon : Nat → Nat) (env : CPUM68KState)
    (regid v s : Nat) (b : Bool) (h : definedReg regid = false) :
    reg_write canon env regid v s b = (uc_err.UC_ERR_ARG, env, b) := by
  unfold definedReg at h
  simp only [Bool.or_eq_false_iff, Bool.and_eq_false_iff,
    decide_eq_false_iff_not] at h
  unfold reg_write
  split_ifs with h1 h2 h3 h4 <;> simp_all

theorem reg_read_ok_or_arg (env : CPUM68KState) (r s : Nat) :
    (reg_read env r s).1 = uc_err.UC_ERR_OK ∨
      (reg_read env r s).1 = uc_err.UC_ERR_ARG := by
  unfold reg_read
  split_ifs <;> simp

theorem reg_read_fail (env : CPUM68KState) (r s : Nat)
    (h : (reg_read env r s).1 ≠ uc_err.UC_ERR_OK) :
    reg_read env r s = (uc_err.UC_ERR_ARG, none) := by
  unfold reg_read at *
  split_ifs at * <;> simp_all

theorem reg_write_ok_or_arg (canon : Nat → Nat) (env : CPUM68KState)
    (r v s : Nat) (b : Bool) :
    (reg_write canon env r v s b).1 = uc_err.UC_ERR_OK ∨
      (reg_write canon env r v s b).1 = uc_err.UC_ERR_ARG := by
  unfold reg_write
  split_ifs <;> simp

theorem reg_write_fail (canon : Nat → Nat) (env : CPUM68KState)
    (r v s : Nat) (b : Bool)
    (h : (reg_write canon env r v s b).1 ≠ uc_err.UC_ERR_OK) :
    reg_write canon env r v s b = (uc_err.UC_ERR_ARG, env, b) := by
  unfold reg_write at *
  split_ifs at * <;> simp_all

/-! ### Structure lemmas for the batch dispatcher -/

theorem reg_read_batch_ok_or_arg (env : CPUM68KState) :
    ∀ l : List (Nat × Nat),
      (reg_read_batch env l).1 = uc_err.UC_ERR_OK ∨
        (reg_read_batch env l).1 = uc_err.UC_ERR_ARG
  | [] => Or.inl rfl
  | e :: rest => by
    rcases reg_read_ok_or_arg env e.1 e.2 with h | h
    · simpa [reg_read_batch, h] using reg_read_batch_ok_or_arg env rest
    · have hne : (reg_read env e.1 e.2).1 ≠ uc_err.UC_ERR_OK := by
        simp [h]
      simp [reg_read_batch, hne, h]

theorem reg_write_batch_ok_or_arg (canon : Nat → Nat) :
    ∀ (l : List (Nat × Nat × Nat)) (env : CPUM68KState) (b : Bool),
      (reg_write_batch canon env b l).1 = uc_err.UC_ERR_OK ∨
        (reg_write_batch canon env b l).1 = uc_err.UC_ERR_ARG
  | [], _, _ => Or.inl rfl
  | e :: rest, env, b => by
    rcases reg_write_ok_or_arg canon env e.1 e.2.1 e.2.2 b with h | h
    · simpa [reg_write_batch, h] using
        reg_write_batch_ok_or_arg canon rest
          (reg_write canon env e.1 e.2.1 e.2.2 b).2.1
          (reg_write canon env e.1 e.2.1 e.2.2 b).2.2
    · have hne : (reg_write canon env e.1 e.2.1 e.2.2 b).1 ≠
          uc_err.UC_ERR_OK := by simp [h]
      simp [reg_write_batch, hne, h]

theorem reg_read_batch_append_ok (env : CPUM68KState) :
    ∀ xs ys : List (Nat × Nat),
      (∀ p ∈ xs, (reg_read env p.1 p.2).1 = uc_err.UC_ERR_OK) →
      reg_read_batch env (xs ++ ys) =
        ((reg_read_batch env ys).1,
          xs.map (fun p => (reg_read env p.1 p.2).2) ++
            (reg_read_batch env ys).2)
  | [], ys, _ => by simp [reg_read_batch]
  | p :: xs, ys, h => by
    have hp := h p (List.mem_cons_self p xs)
    have ih :=
      reg_read_batch_append_ok env xs ys fun q hq =>
        h q (List.mem_cons_of_mem p hq)
    simp [reg_read_batch, hp, ih]

theorem reg_read_batch_cons_fail (env : CPUM68KState) (r s : Nat)
    (ys : List (Nat × Nat))
    (h : (reg_read env r s).1 ≠ uc_err.UC_ERR_OK) :
    reg_read_batch env ((r, s) :: ys) =
      ((reg_read env r s).1,
        none :: ys.map fun _ => (none : Option Nat)) := by
  simp [reg_read_batch, h]

theorem reg_write_batch_append (canon : Nat → Nat) :
    ∀ (xs ys : List (Nat × Nat × Nat)) (env : CPUM68KState) (b : Bool),
      reg_write_batch canon env b (xs ++ ys) =
        if (reg_write_batch canon env b xs).1 = uc_err.UC_ERR_OK then
          reg_write_batch canon (reg_write_batch canon env b xs).2.1
            (reg_write_batch canon env b xs).2.2 ys
        else reg_write_batch canon env b xs
  | [], ys, env, b => by simp [reg_write_batch]
  | e :: xs, ys, env, b => by
    rcases reg_write_ok_or_arg canon env e.1 e.2.1 e.2.2 b with h | h
    · have ih :=
        reg_write_batch_append canon xs ys
          (reg_write canon env e.1 e.2.1 e.2.2 b).2.1
          (reg_write canon env e.1 e.2.1 e.2.2 b).2.2
      simp [reg_write_batch, h, ih]
    · have hne : (reg_write canon env e.1 e.2.1 e.2.2 b).1 ≠
          uc_err.UC_ERR_OK := by simp [h]
      simp [reg_write_batch, hne, h]

theorem reg_write_batch_cons_fail (canon : Nat → Nat)
    (env : CPUM68KState) (b : Bool) (r v s : Nat)
    (ys : List (Nat × Nat × Nat))
    (h : (reg_write canon env r v s b).1 ≠ uc_err.UC_ERR_OK) :
    reg_write_batch canon env b ((r, v, s) :: ys) =
      ((reg_write canon env r v s b).1, env, b) := by
  have hfull := reg_write_fail canon env r v s b h
  simp [reg_write_batch, h, hfull]

/-- The `setpc` output flag of a single write: it is raised exactly by
a program-counter entry of the correct width, and is otherwise the
incoming flag. -/
theorem reg_write_setpc_out (canon : Nat → Nat) (env : CPUM68KState)
    (r v s : Nat) (b : Bool) :
    (reg_write canon env r v s b).2.2 =
      (b || (decide (r = UC_M68K_REG_PC) && decide (s = 4))) := by
  unfold reg_write check_reg_type
  split_ifs with h1 h2 h3 h4 h5 h6 h7 h8 <;>
    simp_all [UC_M68K_REG_A0, UC_M68K_REG_A7, UC_M68K_REG_D0,
      UC_M68K_REG_D7, UC_M68K_REG_PC, UC_M68K_REG_SR] <;>
    omega

/-- The `setpc` output flag of a successful batch: raised exactly when
the incoming flag was raised or some entry is a program-counter write
of the correct width. -/
theorem reg_write_batch_setpc_out (canon : Nat → Nat) :
    ∀ (l : List (Nat × Nat × Nat)) (env : CPUM68KState) (b : Bool),
      (reg_write_batch canon env b l).1 = uc_err.UC_ERR_OK →
      (reg_write_batch canon env b l).2.2 =
        (b ||
          l.any fun e =>
            decide (e.1 = UC_M68K_REG_PC) && decide (e.2.2 = 4))
  | [], env, b, _ => by simp [reg_write_batch]
  | e :: rest, env, b, h => by
    rcases reg_write_ok_or_arg canon env e.1 e.2.1 e.2.2 b with hok | hb
    · have hrest : (reg_write_batch canon
          (reg_write canon env e.1 e.2.1 e.2.2 b).2.1
          (reg_write canon env e.1 e.2.1 e.2.2 b).2.2 rest).1 =
            uc_err.UC_ERR_OK := by
        simpa [reg_write_batch, hok] using h
      have ih :=
        reg_write_batch_setpc_out canon rest
          (reg_write canon env e.1 e.2.1 e.2.2 b).2.1
          (reg_write canon env e.1 e.2.1 e.2.2 b).2.2 hrest
      rw [reg_write_setpc_out canon env e.1 e.2.1 e.2.2 b] at ih
      simp only [reg_write_batch, hok, if_pos, List.any_cons]
      simp only [reg_write_setpc_out canon env e.1 e.2.1 e.2.2 b]
      rw [ih]
      simp [Bool.or_assoc]
    · exfalso
      have hne : (reg_write canon env e.1 e.2.1 e.2.2 b).1 ≠
          uc_err.UC_ERR_OK := by simp [hb]
      simp [reg_write_batch, hne, hb] at h

theorem reg_read_batch_singleton_ok (env : CPUM68KState) (r s : Nat)
    (h : (reg_read env r s).1 = uc_err.UC_ERR_OK) :
    reg_read_batch env [(r, s)] =
      (uc_err.UC_ERR_OK, [(reg_read env r s).2]) := by
  simp [reg_read_batch, h]

theorem reg_write_batch_singleton_ok (canon : Nat → Nat)
    (env : CPUM68KState) (b : Bool) (r v s : Nat)
    (h : (reg_write canon env r v s b).1 = uc_err.UC_ERR_OK) :
    reg_write_batch canon env b [(r, v, s)] =
      (uc_err.UC_ERR_OK, (reg_write canon env r v s b).2.1,
        (reg_write canon env r v s b).2.2) := by
  simp [reg_write_batch, h]

/-- The live batch write returns the underlying batch error and ends
with the underlying batch state. -/
theorem m68k_reg_write_parts (canon : Nat → Nat) (uc : uc_struct)
    (entries : List (Nat × Nat × Nat)) :
    (m68k_reg_write canon uc entries).1 =
        (reg_write_batch canon uc.env false entries).1 ∧
      (m68k_reg_write canon uc entries).2.env =
        (reg_write_batch canon uc.env false entries).2.1 := by
  unfold m68k_reg_write
  by_cases h1 :
      (reg_write_batch canon uc.env false entries).1 = uc_err.UC_ERR_OK
  · by_cases h2 :
        (reg_write_batch canon uc.env false entries).2.2 = true <;>
      simp [h1, h2]
  · simp [h1]

/-! ### Claims -/

/-- C1, counterexample: the claim demands one controller signal per
successful program-counter write, but a live batch holding two
program-counter entries — both of which succeed, as the intermediate
single-write results and the final `pc` value show — delivers exactly
one signal, not two. -/
theorem pc_write_signal_counterexample :
    (m68k_reg_write (fun x => x) uc0
        [(UC_M68K_REG_PC, 5, 4), (UC_M68K_REG_PC, 6, 4)]).1 =
      uc_err.UC_ERR_OK ∧
    (reg_write (fun x => x) uc0.env UC_M68K_REG_PC 5 4 false).1 =
      uc_err.UC_ERR_OK ∧
    (reg_write (fun x => x)
        (reg_write (fun x => x) uc0.env UC_M68K_REG_PC 5 4 false).2.1
        UC_M68K_REG_PC 6 4 true).1 = uc_err.UC_ERR_OK ∧
    (m68k_reg_write (fun x => x) uc0
        [(UC_M68K_REG_PC, 5, 4), (UC_M68K_REG_PC, 6, 4)]).2.env.pc = 6 ∧
    (m68k_reg_write (fun x => x) uc0
        [(UC_M68K_REG_PC, 5, 4), (UC_M68K_REG_PC, 6, 4)]).2.btl_signals =
      uc0.btl_signals + 1 ∧
    ¬(m68k_reg_write (fun x => x) uc0
        [(UC_M68K_REG_PC, 5, 4), (UC_M68K_REG_PC, 6, 4)]).2.btl_signals =
      uc0.btl_signals + 2 := by
  decide

/-- C1 (amended): a live batch write that returns success and holds at
least one program-counter entry of the correct width sets the quit
flag and signals the translation-loop controller exactly once per
batch call; a successful batch with no such entry leaves the flag and
the signal count unchanged; the context-snapshot write path is a pure
state update with no quit flag and no controller signal. -/
theorem live_pc_write_signals_once_per_call (canon : Nat → Nat)
    (uc : uc_struct) (entries : List (Nat × Nat × Nat)) :
    ((m68k_reg_write canon uc entries).1 = uc_err.UC_ERR_OK →
      (((entries.any fun e =>
            decide (e.1 = UC_M68K_REG_PC) && decide (e.2.2 = 4)) =
            true →
          (m68k_reg_write canon uc entries).2.quit_request = true ∧
            (m68k_reg_write canon uc entries).2.btl_signals =
              uc.btl_signals + 1) ∧
        ((entries.any fun e =>
            decide (e.1 = UC_M68K_REG_PC) && decide (e.2.2 = 4)) =
            false →
          (m68k_reg_write canon uc entries).2.quit_request =
              uc.quit_request ∧
            (m68k_reg_write canon uc entries).2.btl_signals =
              uc.btl_signals))) ∧
    (∀ e : CPUM68KState,
      m68k_context_reg_write canon e entries =
        ((reg_write_batch canon e false entries).1,
          (reg_write_batch canon e false entries).2.1)) := by
  constructor
  · intro hok
    have herr : (reg_write_batch canon uc.env false entries).1 =
        uc_err.UC_ERR_OK := by
      rw [← (m68k_reg_write_parts canon uc entries).1]
      exact hok
    have hsp := reg_write_batch_setpc_out canon entries uc.env false herr
    rw [Bool.false_or] at hsp
    constructor
    · intro hany
      rw [hany] at hsp
      unfold m68k_reg_write
      simp [herr, hsp]
    · intro hany
      rw [hany] at hsp
      unfold m68k_reg_write
      simp [herr, hsp]
  · intro e
    rfl

/-- C1 (amended), witness: a successful singleton live batch write to
the program counter raises the quit flag and signals the controller
exactly once. -/
theorem live_pc_write_signals_once_per_call_witness :
    (m68k_reg_write (fun x => x) uc0
        [(UC_M68K_REG_PC, 9, 4)]).2.quit_request = true ∧
    (m68k_reg_write (fun x => x) uc0
        [(UC_M68K_REG_PC, 9, 4)]).2.btl_signals = uc0.btl_signals + 1 :=
  ((live_pc_write_signals_once_per_call (fun x => x) uc0
      [(UC_M68K_REG_PC, 9, 4)]).1 (by decide)).1 (by decide)

/-- C2: batch reads and writes process their entries strictly in index
order; when the entries before index k all succeed and entry k fails,
the batch returns entry k's failure code, the entries before k are
already populated (reads) or applied (writes), and the entries after
k are never attempted: their buffers stay untouched and the state is
exactly the state after the first k entries. -/
theorem batch_fail_fast :
    (∀ (env : CPUM68KState) (xs : List (Nat × Nat)) (r s : Nat)
        (ys : List (Nat × Nat)),
      (∀ p ∈ xs, (reg_read env p.1 p.2).1 = uc_err.UC_ERR_OK) →
      (reg_read env r s).1 ≠ uc_err.UC_ERR_OK →
      reg_read_batch env (xs ++ (r, s) :: ys) =
        ((reg_read env r s).1,
          xs.map (fun p => (reg_read env p.1 p.2).2) ++
            none :: ys.map fun _ => (none : Option Nat))) ∧
    (∀ (canon : Nat → Nat) (env : CPUM68KState) (b : Bool)
        (xs : List (Nat × Nat × Nat)) (r v s : Nat)
        (ys : List (Nat × Nat × Nat)),
      (reg_write_batch canon env b xs).1 = uc_err.UC_ERR_OK →
      (reg_write canon (reg_write_batch canon env b xs).2.1 r v s
          (reg_write_batch canon env b xs).2.2).1 ≠ uc_err.UC_ERR_OK →
      reg_write_batch canon env b (xs ++ (r, v, s) :: ys) =
        ((reg_write canon (reg_write_batch canon env b xs).2.1 r v s
            (reg_write_batch canon env b xs).2.2).1,
          (reg_write_batch canon env b xs).2.1,
          (reg_write_batch canon env b xs).2.2)) := by
  constructor
  · intro env xs r s ys hxs hfail
    rw [reg_read_batch_append_ok env xs ((r, s) :: ys) hxs,
      reg_read_batch_cons_fail env r s ys hfail]
  · intro canon env b xs r v s ys hxs hfail
    rw [reg_write_batch_append canon xs ((r, v, s) :: ys) env b,
      if_pos hxs,
      reg_write_batch_cons_fail canon (reg_write_batch canon env b xs).2.1
        (reg_write_batch canon env b xs).2.2 r v s ys hfail]

/-- C2, witness: a concrete three-entry read batch failing at index 1
and a concrete three-entry write batch failing at index 1. -/
theorem batch_fail_fast_witness :
    (reg_read_batch env0 ([(1, 4)] ++ (9, 3) :: [(17, 4)]) =
      ((reg_read env0 9 3).1,
        [((1 : Nat), (4 : Nat))].map
            (fun p => (reg_read env0 p.1 p.2).2) ++
          none :: [((17 : Nat), (4 : Nat))].map
            fun _ => (none : Option Nat))) ∧
    (reg_write_batch (fun x => x) env0 false
        ([(18, 5, 4)] ++ (0, 0, 4) :: [(1, 7, 4)]) =
      ((reg_write (fun x => x)
          (reg_write_batch (fun x => x) env0 false [(18, 5, 4)]).2.1 0 0 4
          (reg_write_batch (fun x => x) env0 false [(18, 5, 4)]).2.2).1,
        (reg_write_batch (fun x => x) env0 false [(18, 5, 4)]).2.1,
        (reg_write_batch (fun x => x) env0 false [(18, 5, 4)]).2.2)) :=
  ⟨batch_fail_fast.1 env0 [(1, 4)] 9 3 [(17, 4)] (by decide) (by decide),
    batch_fail_fast.2 (fun x => x) env0 false [(18, 5, 4)] 0 0 4
      [(1, 7, 4)] (by decide) (by decide)⟩

/-- C3: every register operation of this binding — single read or
write, batch read or write, on live state or on a context snapshot —
returns either the success code or the invalid-argument code; no
other error kind of the engine enumeration is ever produced. -/
theorem only_ok_or_invalid_argument :
    (∀ (env : CPUM68KState) (r s : Nat),
      (reg_read env r s).1 = uc_err.UC_ERR_OK ∨
        (reg_read env r s).1 = uc_err.UC_ERR_ARG) ∧
    (∀ (canon : Nat → Nat) (env : CPUM68KState) (r v s : Nat)
        (b : Bool),
      (reg_write canon env r v s b).1 = uc_err.UC_ERR_OK ∨
        (reg_write canon env r v s b).1 = uc_err.UC_ERR_ARG) ∧
    (∀ (env : CPUM68KState) (l : List (Nat × Nat)),
      (reg_read_batch env l).1 = uc_err.UC_ERR_OK ∨
        (reg_read_batch env l).1 = uc_err.UC_ERR_ARG) ∧
    (∀ (canon : Nat → Nat) (env : CPUM68KState) (b : Bool)
        (l : List (Nat × Nat × Nat)),
      (reg_write_batch canon env b l).1 = uc_err.UC_ERR_OK ∨
        (reg_write_batch canon env b l).1 = uc_err.UC_ERR_ARG) ∧
    (∀ (uc : uc_struct) (l : List (Nat × Nat)),
      (m68k_reg_read uc l).1 = uc_err.UC_ERR_OK ∨
        (m68k_reg_read uc l).1 = uc_err.UC_ERR_ARG) ∧
    (∀ (canon : Nat → Nat) (uc : uc_struct)
        (l : List (Nat × Nat × Nat)),
      (m68k_reg_write canon uc l).1 = uc_err.UC_ERR_OK ∨
        (m68k_reg_write canon uc l).1 = uc_err.UC_ERR_ARG) ∧
    (∀ (env : CPUM68KState) (l : List (Nat × Nat)),
      (m68k_context_reg_read env l).1 = uc_err.UC_ERR_OK ∨
        (m68k_context_reg_read env l).1 = uc_err.UC_ERR_ARG) ∧
    (∀ (canon : Nat → Nat) (env : CPUM68KState)
        (l : List (Nat × Nat × Nat)),
      (m68k_context_reg_write canon env l).1 = uc_err.UC_ERR_OK ∨
        (m68k_context_reg_write canon env l).1 = uc_err.UC_ERR_ARG) := by
  refine ⟨reg_read_ok_or_arg, reg_write_ok_or_arg, ?_, ?_, ?_, ?_, ?_, ?_⟩
  · intro env l
    exact reg_read_batch_ok_or_arg env l
  · intro canon env b l
    exact reg_write_batch_ok_or_arg canon l env b
  · intro uc l
    exact reg_read_batch_ok_or_arg uc.env l
  · intro canon uc l
    rw [(m68k_reg_write_parts canon uc l).1]
    exact reg_write_batch_ok_or_arg canon l uc.env false
  · intro env l
    exact reg_read_batch_ok_or_arg env l
  · intro canon env l
    exact reg_write_batch_ok_or_arg canon l env false

/-- C4: for a defined register identifier, a read or write declaring
any buffer size other than 4 bytes fails with invalid-argument: the
read leaves the caller buffer untouched and the write returns the
state and the `setpc` flag unchanged. -/
theorem width_mismatch_rejected (canon : Nat → Nat)
    (env : CPUM68KState) (regid v s : Nat) (b : Bool)
    (_hdef : definedReg regid = true) (hs : s ≠ 4) :
    reg_read env regid s = (uc_err.UC_ERR_ARG, none) ∧
      reg_write canon env regid v s b = (uc_err.UC_ERR_ARG, env, b) :=
  ⟨reg_read_bad_size env regid s hs,
    reg_write_bad_size canon env regid v s b hs⟩

/-- C4, witness: a 3-byte access to address register A0 fails with
invalid-argument and mutates nothing. -/
theorem width_mismatch_rejected_witness :
    definedReg UC_M68K_REG_A0 = true ∧ (3 : Nat) ≠ 4 ∧
      reg_read env0 UC_M68K_REG_A0 3 = (uc_err.UC_ERR_ARG, none) ∧
      reg_write (fun x => x) env0 UC_M68K_REG_A0 7 3 false =
        (uc_err.UC_ERR_ARG, env0, false) :=
  ⟨by decide, by decide,
    (width_mismatch_rejected (fun x => x) env0 UC_M68K_REG_A0 7 3 false
        (by decide) (by decide)).1,
    (width_mismatch_rejected (fun x => x) env0 UC_M68K_REG_A0 7 3 false
        (by decide) (by decide)).2⟩

/-- Helper for the round-trip claim: writing a 32-bit value to any
defined register succeeds, and reading the register back yields the
value itself, except for the status register, which yields the
canonicalized value. -/
theorem roundtrip_readback (canon : Nat → Nat)
    (hcanon : ∀ x, canon x < 2 ^ 32) (env : CPUM68KState)
    (regid V : Nat) (hV : V < 2 ^ 32)
    (hdef : definedReg regid = true) :
    (reg_write canon env regid V 4 false).1 = uc_err.UC_ERR_OK ∧
      reg_read (reg_write canon env regid V 4 false).2.1 regid 4 =
        (uc_err.UC_ERR_OK,
          some (if regid = UC_M68K_REG_SR then canon V else V)) := by
  have hV32 : V % 2 ^ 32 = V := Nat.mod_eq_of_lt hV
  simp only [definedReg, Bool.or_eq_true, Bool.and_eq_true,
    decide_eq_true_eq] at hdef
  rcases hdef with ((hA | hD) | hPC) | hSR
  · have hne : ¬(regid = UC_M68K_REG_SR) := by
      simp only [UC_M68K_REG_A0, UC_M68K_REG_A7] at hA
      simp only [UC_M68K_REG_SR]
      omega
    rw [reg_write_areg canon env regid V false hA]
    refine ⟨rfl, ?_⟩
    rw [reg_read_areg _ regid hA]
    show (uc_err.UC_ERR_OK,
      some (Function.update env.aregs (regid - UC_M68K_REG_A0)
        (V % 2 ^ 32) (regid - UC_M68K_REG_A0))) = _
    rw [Function.update_same, hV32, if_neg hne]
  · have hne : ¬(regid = UC_M68K_REG_SR) := by
      simp only [UC_M68K_REG_D0, UC_M68K_REG_D7] at hD
      simp only [UC_M68K_REG_SR]
      omega
    rw [reg_write_dreg canon env regid V false hD]
    refine ⟨rfl, ?_⟩
    rw [reg_read_dreg _ regid hD]
    show (uc_err.UC_ERR_OK,
      some (Function.update env.dregs (regid - UC_M68K_REG_D0)
        (V % 2 ^ 32) (regid - UC_M68K_REG_D0))) = _
    rw [Function.update_same, hV32, if_neg hne]
  · subst hPC
    have hne : ¬(UC_M68K_REG_PC = UC_M68K_REG_SR) := by decide
    rw [reg_write_pc canon env V false]
    refine ⟨rfl, ?_⟩
    rw [reg_read_pc]
    show (uc_err.UC_ERR_OK, some (V % 2 ^ 32)) = _
    rw [hV32, if_neg hne]
  · subst hSR
    rw [reg_write_sr canon env V false]
    refine ⟨rfl, ?_⟩
    rw [reg_read_sr]
    show (uc_err.UC_ERR_OK, some (canon (V % 2 ^ 32) % 2 ^ 32)) = _
    rw [hV32, Nat.mod_eq_of_lt (hcanon V), if_pos rfl]

/-- C5: writing a 32-bit value V to a defined register and reading it
back yields V, except for the status register, whose read-back is the
canonicalized form of V; when canonicalization is idempotent, writing
the read-back value again and re-reading reproduces the same value,
so repeated write/read cycles are stable; the same round trip holds
through the live singleton-batch path and through the context
snapshot path. -/
theorem write_read_roundtrip (canon : Nat → Nat)
    (hcanon : ∀ x, canon x < 2 ^ 32) (env : CPUM68KState)
    (regid V : Nat) (hV : V < 2 ^ 32)
    (hdef : definedReg regid = true) :
    (reg_write canon env regid V 4 false).1 = uc_err.UC_ERR_OK ∧
    (regid ≠ UC_M68K_REG_SR →
      reg_read (reg_write canon env regid V 4 false).2.1 regid 4 =
        (uc_err.UC_ERR_OK, some V)) ∧
    (regid = UC_M68K_REG_SR →
      reg_read (reg_write canon env regid V 4 false).2.1 regid 4 =
        (uc_err.UC_ERR_OK, some (canon V))) ∧
    ((∀ x, canon (canon x) = canon x) →
      reg_read
        (reg_write canon (reg_write canon env regid V 4 false).2.1
          regid (if regid = UC_M68K_REG_SR then canon V else V) 4
          false).2.1 regid 4 =
        reg_read (reg_write canon env regid V 4 false).2.1 regid 4) ∧
    (∀ uc : uc_struct,
      m68k_reg_read (m68k_reg_write canon uc [(regid, V, 4)]).2
        [(regid, 4)] =
        (uc_err.UC_ERR_OK,
          [some (if regid = UC_M68K_REG_SR then canon V else V)])) ∧
    (m68k_context_reg_read
        (m68k_context_reg_write canon env [(regid, V, 4)]).2
        [(regid, 4)] =
      (uc_err.UC_ERR_OK,
        [some (if regid = UC_M68K_REG_SR then canon V else V)])) := by
  have hcore := roundtrip_readback canon hcanon env regid V hV hdef
  refine ⟨hcore.1, ?_, ?_, ?_, ?_, ?_⟩
  · intro hne
    rw [hcore.2, if_neg hne]
  · intro heq
    rw [hcore.2, if_pos heq]
  · intro hidem
    have hX : (if regid = UC_M68K_REG_SR then canon V else V) < 2 ^ 32 := by
      by_cases h : regid = UC_M68K_REG_SR
      · rw [if_pos h]
        exact hcanon V
      · rw [if_neg h]
        exact hV
    have hcore2 := roundtrip_readback canon hcanon
      (reg_write canon env regid V 4 false).2.1 regid
      (if regid = UC_M68K_REG_SR then canon V else V) hX hdef
    rw [hcore2.2, hcore.2]
    by_cases h : regid = UC_M68K_REG_SR
    · simp [h, hidem V]
    · simp [h]
  · intro uc
    have hc := roundtrip_readback canon hcanon uc.env regid V hV hdef
    have henv : (m68k_reg_write canon uc [(regid, V, 4)]).2.env =
        (reg_write canon uc.env regid V 4 false).2.1 := by
      rw [(m68k_reg_write_parts canon uc [(regid, V, 4)]).2,
        reg_write_batch_singleton_ok canon uc.env false regid V 4 hc.1]
    have hr1 : (reg_read (reg_write canon uc.env regid V 4 false).2.1
        regid 4).1 = uc_err.UC_ERR_OK := by
      rw [hc.2]
    show reg_read_batch (m68k_reg_write canon uc [(regid, V, 4)]).2.env
        [(regid, 4)] = _
    rw [henv, reg_read_batch_singleton_ok _ regid 4 hr1, hc.2]
  · have hc := roundtrip_readback canon hcanon env regid V hV hdef
    have henv : (m68k_context_reg_write canon env [(regid, V, 4)]).2 =
        (reg_write canon env regid V 4 false).2.1 := by
      show (reg_write_batch canon env false [(regid, V, 4)]).2.1 = _
      rw [reg_write_batch_singleton_ok canon env false regid V 4 hc.1]
    have hr1 : (reg_read (reg_write canon env regid V 4 false).2.1
        regid 4).1 = uc_err.UC_ERR_OK := by
      rw [hc.2]
    show reg_read_batch
        (m68k_context_reg_write canon env [(regid, V, 4)]).2
        [(regid, 4)] = _
    rw [henv, reg_read_batch_singleton_ok _ regid 4 hr1, hc.2]

/-- C5, witness: a data-register round trip returns the written value
and a status-register round trip returns the canonicalized value, for
the concrete (idempotent, 32-bit-valued) canonicalizer mapping
everything to 0. -/
theorem write_read_roundtrip_witness :
    reg_read (reg_write (fun _ => 0) env0 9 7 4 false).2.1 9 4 =
        (uc_err.UC_ERR_OK, some 7) ∧
      reg_read
          (reg_write (fun _ => 0) env0 UC_M68K_REG_SR 5 4 false).2.1
          UC_M68K_REG_SR 4 = (uc_err.UC_ERR_OK, some 0) ∧
      m68k_reg_read
          (m68k_reg_write (fun _ => 0) uc0 [(9, 7, 4)]).2 [(9, 4)] =
        (uc_err.UC_ERR_OK, [some 7]) := by
  have hc : ∀ x : Nat, (fun _ : Nat => (0 : Nat)) x < 2 ^ 32 := by
    intro x
    show (0 : Nat) < 2 ^ 32
    norm_num
  refine ⟨(write_read_roundtrip (fun _ => 0) hc env0 9 7
      (by decide) (by decide)).2.1 (by decide),
    (write_read_roundtrip (fun _ => 0) hc env0
      UC_M68K_REG_SR 5 (by decide) (by decide)).2.2.1 rfl,
    ?_⟩
  have h := (write_read_roundtrip (fun _ => 0) hc env0 9 7
      (by decide) (by decide)).2.2.2.2.1 uc0
  rw [h]
  norm_num [UC_M68K_REG_SR]

/-- C6: a register identifier outside every defined range is rejected
with invalid-argument by reads and writes alike, through the single
accessor, the live batch path and the context-snapshot path, and no
state is mutated. -/
theorem unknown_register_rejected (canon : Nat → Nat)
    (env : CPUM68KState) (uc : uc_struct) (regid v s : Nat) (b : Bool)
    (hundef : definedReg regid = false) :
    reg_read env regid s = (uc_err.UC_ERR_ARG, none) ∧
    reg_write canon env regid v s b = (uc_err.UC_ERR_ARG, env, b) ∧
    m68k_reg_read uc [(regid, s)] = (uc_err.UC_ERR_ARG, [none]) ∧
    m68k_reg_write canon uc [(regid, v, s)] = (uc_err.UC_ERR_ARG, uc) ∧
    m68k_context_reg_read env [(regid, s)] =
      (uc_err.UC_ERR_ARG, [none]) ∧
    m68k_context_reg_write canon env [(regid, v, s)] =
      (uc_err.UC_ERR_ARG, env) := by
  have hr := reg_read_undef env regid s hundef
  have hruc := reg_read_undef uc.env regid s hundef
  have hwuc := reg_write_undef canon uc.env regid v s false hundef
  have hwenv := reg_write_undef canon env regid v s false hundef
  refine ⟨hr, reg_write_undef canon env regid v s b hundef,
    ?_, ?_, ?_, ?_⟩
  · show reg_read_batch uc.env [(regid, s)] = _
    rw [reg_read_batch_cons_fail uc.env regid s [] (by rw [hruc]; simp),
      hruc]
    rfl
  · have hbatch : reg_write_batch canon uc.env false [(regid, v, s)] =
        (uc_err.UC_ERR_ARG, uc.env, false) := by
      rw [reg_write_batch_cons_fail canon uc.env false regid v s []
        (by rw [hwuc]; simp), hwuc]
    unfold m68k_reg_write
    rw [hbatch]
    rfl
  · show reg_read_batch env [(regid, s)] = _
    rw [reg_read_batch_cons_fail env regid s [] (by rw [hr]; simp), hr]
    rfl
  · have hbatch : reg_write_batch canon env false [(regid, v, s)] =
        (uc_err.UC_ERR_ARG, env, false) := by
      rw [reg_write_batch_cons_fail canon env false regid v s []
        (by rw [hwenv]; simp), hwenv]
    show ((reg_write_batch canon env false [(regid, v, s)]).1,
        (reg_write_batch canon env false [(regid, v, s)]).2.1) = _
    rw [hbatch]

/-- C6, witness: identifier 42 lies outside every defined range and is
rejected everywhere with no mutation. -/
theorem unknown_register_rejected_witness :
    definedReg 42 = false ∧
      reg_read env0 42 4 = (uc_err.UC_ERR_ARG, none) ∧
      m68k_reg_write (fun x => x) uc0 [(42, 7, 4)] =
        (uc_err.UC_ERR_ARG, uc0) :=
  ⟨by decide,
    (unknown_register_rejected (fun x => x) env0 uc0 42 7 4 false
        (by decide)).1,
    (unknown_register_rejected (fun x => x) env0 uc0 42 7 4 false
        (by decide)).2.2.2.1⟩

/-- C7: after the reset hook, every address register, every data
register and the program counter read back as zero through the
register interface, while the status register, the
architecture-private fields (per-mode translation caches) and the
engine flags are untouched. -/
theorem reset_zeroes_registers (uc : uc_struct) :
    (∀ i : Nat, i ≤ 7 →
      reg_read (m68k_reg_reset uc).env (UC_M68K_REG_A0 + i) 4 =
          (uc_err.UC_ERR_OK, some 0) ∧
        reg_read (m68k_reg_reset uc).env (UC_M68K_REG_D0 + i) 4 =
          (uc_err.UC_ERR_OK, some 0)) ∧
    reg_read (m68k_reg_reset uc).env UC_M68K_REG_PC 4 =
      (uc_err.UC_ERR_OK, some 0) ∧
    (m68k_reg_reset uc).env.sr = uc.env.sr ∧
    (m68k_reg_reset uc).env.caches = uc.env.caches ∧
    (m68k_reg_reset uc).quit_request = uc.quit_request ∧
    (m68k_reg_reset uc).btl_signals = uc.btl_signals := by
  refine ⟨?_, ?_, rfl, rfl, rfl, rfl⟩
  · intro i hi
    have hA : UC_M68K_REG_A0 ≤ UC_M68K_REG_A0 + i ∧
        UC_M68K_REG_A0 + i ≤ UC_M68K_REG_A7 := by
      simp only [UC_M68K_REG_A0, UC_M68K_REG_A7]
      omega
    have hD : UC_M68K_REG_D0 ≤ UC_M68K_REG_D0 + i ∧
        UC_M68K_REG_D0 + i ≤ UC_M68K_REG_D7 := by
      simp only [UC_M68K_REG_D0, UC_M68K_REG_D7]
      omega
    constructor
    · rw [reg_read_areg _ _ hA]
      rfl
    · rw [reg_read_dreg _ _ hD]
      rfl
  · rw [reg_read_pc]
    rfl

/-- C7, witness: resetting a state whose registers and private fields
are all nonzero zeroes A0 and D7. -/
theorem reset_zeroes_registers_witness :
    (0 : Nat) ≤ 7 ∧ (7 : Nat) ≤ 7 ∧
      reg_read (m68k_reg_reset uc1).env (UC_M68K_REG_A0 + 0) 4 =
        (uc_err.UC_ERR_OK, some 0) ∧
      reg_read (m68k_reg_reset uc1).env (UC_M68K_REG_D0 + 7) 4 =
        (uc_err.UC_ERR_OK, some 0) :=
  ⟨by decide, by decide,
    ((reset_zeroes_registers uc1).1 0 (by decide)).1,
    ((reset_zeroes_registers uc1).1 7 (by decide)).2⟩

/-- C8: the direct set-program-counter hook updates only the `pc`
field — every other CPU-state field, the quit flag and the controller
signal count are unchanged — whereas a register-interface write to
the PC identifier on live state raises the quit flag and signals the
controller. -/
theorem set_pc_does_not_signal (canon : Nat → Nat) (uc : uc_struct)
    (v : Nat) :
    (m68k_set_pc uc v).env.pc = v % 2 ^ 32 ∧
    (m68k_set_pc uc v).quit_request = uc.quit_request ∧
    (m68k_set_pc uc v).btl_signals = uc.btl_signals ∧
    (m68k_set_pc uc v).env.aregs = uc.env.aregs ∧
    (m68k_set_pc uc v).env.dregs = uc.env.dregs ∧
    (m68k_set_pc uc v).env.sr = uc.env.sr ∧
    (m68k_set_pc uc v).env.caches = uc.env.caches ∧
    (m68k_reg_write canon uc
        [(UC_M68K_REG_PC, v, 4)]).2.quit_request = true ∧
    (m68k_reg_write canon uc [(UC_M68K_REG_PC, v, 4)]).2.btl_signals =
      uc.btl_signals + 1 := by
  have hbatch : reg_write_batch canon uc.env false
      [(UC_M68K_REG_PC, v, 4)] =
      (uc_err.UC_ERR_OK, { uc.env with pc := v % 2 ^ 32 }, true) := by
    rw [reg_write_batch_singleton_ok canon uc.env false UC_M68K_REG_PC
      v 4 (by rw [reg_write_pc]), reg_write_pc]
  have hlive : m68k_reg_write canon uc [(UC_M68K_REG_PC, v, 4)] =
      (uc_err.UC_ERR_OK,
        { env := { uc.env with pc := v % 2 ^ 32 },
          quit_request := true, btl_signals := uc.btl_signals + 1 }) := by
    unfold m68k_reg_write
    rw [hbatch]
    rfl
  refine ⟨rfl, rfl, rfl, rfl, rfl, rfl, rfl, ?_, ?_⟩
  · rw [hlive]
  · rw [hlive]

/-- C9: a live batch write that fails on any entry leaves the quit
flag and the controller signal count unchanged — even if an earlier
entry of the same batch already wrote the program counter; across any
single live batch call the controller is signalled at most once, and
a signal implies the whole batch succeeded. -/
theorem failed_batch_write_never_signals (canon : Nat → Nat)
    (uc : uc_struct) (entries : List (Nat × Nat × Nat)) :
    ((m68k_reg_write canon uc entries).1 ≠ uc_err.UC_ERR_OK →
      (m68k_reg_write canon uc entries).2.quit_request =
          uc.quit_request ∧
        (m68k_reg_write canon uc entries).2.btl_signals =
          uc.btl_signals) ∧
    ((m68k_reg_write canon uc entries).2.btl_signals = uc.btl_signals ∨
      (m68k_reg_write canon uc entries).2.btl_signals =
        uc.btl_signals + 1) ∧
    ((m68k_reg_write canon uc entries).2.btl_signals =
        uc.btl_signals + 1 →
      (m68k_reg_write canon uc entries).1 = uc_err.UC_ERR_OK) := by
  unfold m68k_reg_write
  by_cases h1 :
      (reg_write_batch canon uc.env false entries).1 = uc_err.UC_ERR_OK
  · by_cases h2 :
        (reg_write_batch canon uc.env false entries).2.2 = true
    · refine ⟨?_, ?_, ?_⟩ <;> simp [h1, h2]
    · refine ⟨?_, ?_, ?_⟩ <;> simp [h1, h2]
  · refine ⟨?_, ?_, ?_⟩ <;> simp [h1]

/-- C9, witness: a live batch whose first entry successfully writes
the program counter and whose second entry is invalid neither raises
the quit flag nor signals the controller. -/
theorem failed_batch_write_never_signals_witness :
    (m68k_reg_write (fun x => x) uc0
        [(UC_M68K_REG_PC, 5, 4), (42, 0, 4)]).2.quit_request =
        uc0.quit_request ∧
      (m68k_reg_write (fun x => x) uc0
          [(UC_M68K_REG_PC, 5, 4), (42, 0, 4)]).2.btl_signals =
        uc0.btl_signals :=
  (failed_batch_write_never_signals (fun x => x) uc0
      [(UC_M68K_REG_PC, 5, 4), (42, 0, 4)]).1 (by decide)

/-- C10: the direct program-counter hooks truncate to 32 bits: the
set hook stores the value reduced modulo 2^32 into the `pc` field,
the get hook then returns that reduced value, and for any value with
bits above the 32nd the value read back differs from the value
written. -/
theorem pc_hooks_truncate (uc : uc_struct) (v : Nat) :
    (m68k_set_pc uc v).env.pc = v % 2 ^ 32 ∧
      m68k_get_pc (m68k_set_pc uc v) = v % 2 ^ 32 ∧
      (2 ^ 32 ≤ v → m68k_get_pc (m68k_set_pc uc v) ≠ v) := by
  refine ⟨rfl, rfl, ?_⟩
  intro hv
  show v % 2 ^ 32 ≠ v
  have h1 : v % 2 ^ 32 < 2 ^ 32 := Nat.mod_lt v (by norm_num)
  exact Nat.ne_of_lt (lt_of_lt_of_le h1 hv)

/-- C10, witness: writing 2^32 + 7 through the set hook reads back as
a different value (namely 7). -/
theorem pc_hooks_truncate_witness :
    2 ^ 32 ≤ 2 ^ 32 + 7 ∧
      m68k_get_pc (m68k_set_pc uc0 (2 ^ 32 + 7)) ≠ 2 ^ 32 + 7 :=
  ⟨by norm_num, (pc_hooks_truncate uc0 (2 ^ 32 + 7)).2.2 (by norm_num)⟩

end Unicorn
